import Mathlib

/-!
Verification of the gstreamer-control source switcher: a shallow embedding of
the state store (src/switcher/state.ts), the control API handler
(src/switcher/api.ts), the pipeline client (src/switcher/pipeline.ts) and the
rotation scheduler (src/switcher/rotation.ts), with theorems settling the
behavioural claims about notifications, timers, the schedule-index invariant
and persistence round-trips.
-/

namespace Switcher

/-- RotationScheduleItem from types.ts: `{cameraId, durationSeconds}`. -/
structure RotationScheduleItem where
  cameraId : Int
  durationSeconds : Int
deriving Repr, DecidableEq

/-- SwitcherState from types.ts.  Timestamps are modelled as naturals
(milliseconds); ids as integers. -/
structure SwitcherState where
  rotationEnabled : Bool
  fixedSourceId : Option Int
  selectedCameraIds : List Int
  rotationSchedule : List RotationScheduleItem
  currentSourceId : Option Int
  lastSwitchTime : Option Nat
  currentScheduleIndex : Option Nat
deriving Repr, DecidableEq

/-- Source from types.ts: optional fields are `Option` (the code reads them
with `|| false` fallbacks). -/
structure Source where
  id : Int
  source_type : String
  enabled : Option Bool
  is_healthy : Option Bool
deriving Repr, DecidableEq

/-- `defaultState` from state.ts. -/
def defaultState : SwitcherState :=
  { rotationEnabled := false
    fixedSourceId := none
    selectedCameraIds := []
    rotationSchedule := []
    currentSourceId := none
    lastSwitchTime := none
    currentScheduleIndex := none }

/-- The persisted JSON snapshot as read back by `loadState`: every field may
be absent (`JSON.parse` of a partial object). -/
structure Snapshot where
  rotationEnabled : Option Bool
  fixedSourceId : Option (Option Int)
  selectedCameraIds : Option (List Int)
  rotationSchedule : Option (List RotationScheduleItem)
  currentSourceId : Option (Option Int)
  lastSwitchTime : Option (Option Nat)
  currentScheduleIndex : Option (Option Nat)
deriving Repr, DecidableEq

/-- What `saveState` writes: `JSON.stringify(state)` serialises every field
(null fields included), so the snapshot carries all seven fields. -/
def writeSnapshot (st : SwitcherState) : Snapshot :=
  { rotationEnabled := some st.rotationEnabled
    fixedSourceId := some st.fixedSourceId
    selectedCameraIds := some st.selectedCameraIds
    rotationSchedule := some st.rotationSchedule
    currentSourceId := some st.currentSourceId
    lastSwitchTime := some st.lastSwitchTime
    currentScheduleIndex := some st.currentScheduleIndex }

/-- A snapshot with every field absent (empty JSON object on disk). -/
def emptySnapshot : Snapshot :=
  { rotationEnabled := none
    fixedSourceId := none
    selectedCameraIds := none
    rotationSchedule := none
    currentSourceId := none
    lastSwitchTime := none
    currentScheduleIndex := none }

/-- `loadState` from state.ts: merge a loaded snapshot over the current state,
overriding a field only when it is present (`!== undefined`). -/
def loadState (loaded : Snapshot) (st : SwitcherState) : SwitcherState :=
  { rotationEnabled := loaded.rotationEnabled.getD st.rotationEnabled
    fixedSourceId := loaded.fixedSourceId.getD st.fixedSourceId
    selectedCameraIds := loaded.selectedCameraIds.getD st.selectedCameraIds
    rotationSchedule := loaded.rotationSchedule.getD st.rotationSchedule
    currentSourceId := loaded.currentSourceId.getD st.currentSourceId
    lastSwitchTime := loaded.lastSwitchTime.getD st.lastSwitchTime
    currentScheduleIndex := loaded.currentScheduleIndex.getD st.currentScheduleIndex }

/-- System state threaded through the store and the scheduler: the in-memory
record plus the persisted copy on disk (`none` before the first successful
write). -/
structure Sys where
  st : SwitcherState
  disk : Option SwitcherState
deriving Repr, DecidableEq

/-- `saveState(emitEvent)` from state.ts.  The body is one `try` block: the
file write happens first and `stateEvents.emit` runs after it, still inside
the `try`; a write failure jumps to the `catch` (which only logs), so the
event is emitted only when the write succeeded.  Returns the updated system
and the number of `stateChanged` notifications emitted (0 or 1). -/
def saveState (writeOk : Bool) (emitEvent : Bool) (sys : Sys) : Sys × Nat :=
  if writeOk then
    ({ sys with disk := some sys.st }, if emitEvent then 1 else 0)
  else
    (sys, 0)

/-- The `PUT /api/state` request body, `Partial<SwitcherState>` restricted to
the configuration fields the handler applies (api.ts lines 76-96).  An outer
`none` means the field was absent from the body. -/
structure PartialState where
  rotationEnabled : Option Bool
  fixedSourceId : Option (Option Int)
  selectedCameraIds : Option (List Int)
  rotationSchedule : Option (List RotationScheduleItem)
deriving Repr, DecidableEq

/-- The pure state mutation performed by the `PUT /api/state` branch of
`handleAPIRequest` (api.ts lines 76-96): apply each provided field; when a
schedule is provided, reset `currentScheduleIndex` if it is non-null and the
schedule length changed or the index is now out of bounds. -/
def apiPutState (body : PartialState) (st : SwitcherState) : SwitcherState :=
  let st1 := match body.rotationEnabled with
    | some v => { st with rotationEnabled := v }
    | none => st
  let st2 := match body.fixedSourceId with
    | some v => { st1 with fixedSourceId := v }
    | none => st1
  let st3 := match body.selectedCameraIds with
    | some v => { st2 with selectedCameraIds := v }
    | none => st2
  match body.rotationSchedule with
  | some sched =>
      let oldLen := st3.rotationSchedule.length
      let st4 := { st3 with rotationSchedule := sched }
      match st4.currentScheduleIndex with
      | some i =>
          if oldLen ≠ sched.length ∨ i ≥ sched.length then
            { st4 with currentScheduleIndex :=
                if sched.length > 0 then some 0 else none }
          else st4
      | none => st4
  | none => st3

/-- One configuration mutation call: the `PUT /api/state` handler applies the
body's fields and then calls `saveState()` (with the default
`emitEvent = true`).  Returns the new system and the notification count. -/
def configMutation (writeOk : Bool) (body : PartialState) (sys : Sys) :
    Sys × Nat :=
  saveState writeOk true { sys with st := apiPutState body sys.st }

/-- A sequence of configuration mutation calls, each with its own body and
its own write outcome; returns the final system and the total number of
notifications emitted. -/
def runConfigCalls : List (PartialState × Bool) → Sys → Sys × Nat
  | [], sys => (sys, 0)
  | c :: cs, sys =>
      let r := configMutation c.2 c.1 sys
      let rest := runConfigCalls cs r.1
      (rest.1, r.2 + rest.2)

/-- Environment for the scheduler: per-source-id outcome of the remote switch
call, outcome of disk writes, and the current time (ms). -/
structure Env where
  switchOk : Int → Bool
  writeOk : Bool
  now : Nat

/-- Observable effects of one scheduler entry: source ids passed to
`switchToSource` (in order), the `emitEvent` flag of each `saveState` call,
the `setTimeout` delays armed (ms), and the notifications emitted. -/
structure Effects where
  switchAttempts : List Int
  saveFlags : List Bool
  timersArmed : List Int
  notifs : Nat
deriving Repr, DecidableEq

/-- The empty effect record. -/
def Effects.none : Effects := ⟨[], [], [], 0⟩

/-- Concatenation of effect records, in execution order. -/
def Effects.append (a b : Effects) : Effects :=
  ⟨a.switchAttempts ++ b.switchAttempts, a.saveFlags ++ b.saveFlags,
    a.timersArmed ++ b.timersArmed, a.notifs + b.notifs⟩

/-- `switchToSource` from pipeline.ts: on a successful response it sets
`currentSourceId` and `lastSwitchTime`, calls `saveState(false)` and returns
`true`; on a failed response or a thrown transport error it returns `false`
without touching the state. -/
def switchToSource (env : Env) (sourceId : Int) (sys : Sys) :
    Sys × Bool × Effects :=
  if env.switchOk sourceId then
    let sys1 : Sys :=
      { sys with st := { sys.st with currentSourceId := some sourceId,
                                     lastSwitchTime := some env.now } }
    let r := saveState env.writeOk false sys1
    (r.1, true, ⟨[sourceId], [false], [], r.2⟩)
  else
    (sys, false, ⟨[sourceId], [], [], 0⟩)

/-- `getAvailableSources` from rotation.ts: keep sources that are enabled
(`s.enabled || false`) and of type srt; when `selectedCameraIds` is
non-empty, additionally keep only the selected ids. -/
def getAvailableSources (selected : List Int) (sources : List Source) :
    List Source :=
  let avail := sources.filter
    (fun s => s.enabled.getD false && s.source_type == "srt")
  if selected.length > 0 then
    avail.filter (fun s => selected.contains s.id)
  else avail

/-- `handleFixedSource` from rotation.ts: when `fixedSourceId` is set, look it
up in the raw source list; if found and enabled, switch to it only when
`currentSourceId` differs; in every other case do nothing. -/
def handleFixedSource (env : Env) (sources : List Source) (sys : Sys) :
    Sys × Effects :=
  match sys.st.fixedSourceId with
  | some fid =>
      match sources.find? (fun s => s.id == fid) with
      | some src =>
          if src.enabled.getD false then
            if sys.st.currentSourceId ≠ some fid then
              let r := switchToSource env fid sys
              (r.1, r.2.2)
            else (sys, Effects.none)
          else (sys, Effects.none)
      | none => (sys, Effects.none)
  | none => (sys, Effects.none)

/-- The rotation-disabled branch of `processRotation` (rotation.ts lines
83-90): clear a non-null `currentScheduleIndex` with a `saveState(false)`,
then run `handleFixedSource`; no timer is armed. -/
def rotDisabled (env : Env) (sources : List Source) (sys : Sys) :
    Sys × Effects :=
  let r1 :=
    if sys.st.currentScheduleIndex ≠ none then
      let sysA : Sys := { sys with st := { sys.st with currentScheduleIndex := none } }
      let r := saveState env.writeOk false sysA
      (r.1, (⟨[], [false], [], r.2⟩ : Effects))
    else (sys, Effects.none)
  let r2 := handleFixedSource env sources r1.1
  (r2.1, Effects.append r1.2 r2.2)

/-- The enabled-with-schedule tail of `processRotation` (rotation.ts lines
106-143), entered after the index reset: read the current item, filter the
sources, then either the resolved branch — `switchToSource` with its result
ignored, `saveState(false)` while the index still points at the item just
switched to, advance the index in memory only, arm the item's duration — or
the unresolved branch — advance the index, `saveState(false)`, arm a 5000 ms
retry timer. -/
def rotActive (env : Env) (sources : List Source) (sys1 : Sys) :
    Sys × Effects :=
  let i := sys1.st.currentScheduleIndex.getD 0
  let len := sys1.st.rotationSchedule.length
  let item := sys1.st.rotationSchedule.getD (i % len) ⟨0, 0⟩
  let avail := getAvailableSources sys1.st.selectedCameraIds sources
  match avail.find? (fun s => s.id == item.cameraId) with
  | some _src =>
      let r2 := switchToSource env item.cameraId sys1
      let r3 := saveState env.writeOk false r2.1
      let nextIdx := (r3.1.st.currentScheduleIndex.getD 0 + 1) % r3.1.st.rotationSchedule.length
      let sys4 : Sys := { r3.1 with st := { r3.1.st with currentScheduleIndex := some nextIdx } }
      (sys4, Effects.append r2.2.2
        ⟨[], [false], [item.durationSeconds * 1000], r3.2⟩)
  | none =>
      let nextIdx := (sys1.st.currentScheduleIndex.getD 0 + 1) % sys1.st.rotationSchedule.length
      let sys2 : Sys := { sys1 with st := { sys1.st with currentScheduleIndex := some nextIdx } }
      let r3 := saveState env.writeOk false sys2
      (r3.1, ⟨[], [false], [5000], r3.2⟩)

/-- `processRotation` from rotation.ts (the timer-arming `setTimeout` calls
are recorded in `timersArmed`; the entry-point `cancelCurrentTimer` is
modelled at the scheduler-step level since it touches the timer slot, not the
state).  Branches, in source order: the `shouldStop` guard; the
rotation-disabled branch (`rotDisabled`); the empty-schedule branch (no-op,
no timer); the index reset (`null` or out of range becomes 0, persisted with
`saveState(false)`); then the active tail (`rotActive`). -/
def processRotation (shouldStop : Bool) (env : Env) (sources : List Source)
    (sys : Sys) : Sys × Effects :=
  if shouldStop then (sys, Effects.none)
  else if !sys.st.rotationEnabled then rotDisabled env sources sys
  else if sys.st.rotationSchedule.length == 0 then (sys, Effects.none)
  else
    let r1 :=
      if sys.st.currentScheduleIndex = none ∨
          sys.st.currentScheduleIndex.getD 0 ≥ sys.st.rotationSchedule.length then
        let sysA : Sys := { sys with st := { sys.st with currentScheduleIndex := some 0 } }
        let r := saveState env.writeOk false sysA
        (r.1, (⟨[], [false], [], r.2⟩ : Effects))
      else (sys, Effects.none)
    let r2 := rotActive env sources r1.1
    (r2.1, Effects.append r1.2 r2.2)

/-- The scheduler's timer slot plus the system state, for the *serialized*
run model below (each entry runs to completion before the next trigger).
`pending` lists the armed, unfired, uncancelled `setTimeout` delays. -/
structure SchedulerSys where
  sys : Sys
  pending : List Int
deriving Repr, DecidableEq

/-- `cancelCurrentTimer` from rotation.ts in the serialized model:
`clearTimeout` on the tracked handle; with entries serialized the tracked
handle is the most recently armed pending timer, so cancellation drops the
head. -/
def cancelCurrentTimer (pending : List Int) : List Int := pending.tail

/-- The two triggers that enter the scheduler: a `stateChanged` notification
(`handleStateChange`) and a timer expiry (the `setTimeout` callback). -/
inductive Trigger where
  | notify
  | timerFire
deriving Repr, DecidableEq

/-- One *serialized* scheduler entry: the trigger's invocation of
`processRotation` runs to completion before anything else happens.  This
serialization is adequate for counting notifications — each `saveState` call
inside an entry emits independently of interleaving — but it is **not**
faithful for timer bookkeeping: the real `processRotation` is async and can
be suspended at an `await` while another invocation starts (rotation.ts has
no deferral or reentrancy guard), which the `AsyncSched` model below
captures.  A firing timer removes itself from the pending set (its callback
also nulls the tracked handle); a notification runs `handleStateChange`,
which calls `cancelCurrentTimer`.  Either way `processRotation` then runs,
itself starting with `cancelCurrentTimer`, and its armed timers become
pending. -/
def schedulerStep (env : Env) (sources : List Source) (t : Trigger)
    (s : SchedulerSys) : SchedulerSys × Effects :=
  let pending0 := match t with
    | Trigger.timerFire => s.pending.tail
    | Trigger.notify => cancelCurrentTimer s.pending
  let pending1 := cancelCurrentTimer pending0
  let r := processRotation false env sources s.sys
  (⟨r.1, pending1 ++ r.2.timersArmed⟩, r.2)

/-- Run the serialized scheduler over a trigger sequence, collecting every
intermediate `SchedulerSys` (the initial one included) and the total
notification count. -/
def schedulerTrace (env : Env) (sources : List Source) :
    List Trigger → SchedulerSys → List SchedulerSys × Nat
  | [], s => ([s], 0)
  | t :: ts, s =>
      let r := schedulerStep env sources t s
      let rest := schedulerTrace env sources ts r.1
      (s :: rest.1, r.2.notifs + rest.2)

/-- Timer bookkeeping of the *interleaved* (event-loop) execution of
rotation.ts.  `tracked` is the `currentTimer` variable (the `setTimeout`
handle it holds, as an id); `pending` lists the ids of armed, unfired,
uncancelled timers; `suspended` counts `processRotation` invocations parked
at an `await` (every timer-arming path awaits `switchToSource` and/or
`saveState` before reaching its `setTimeout`); `nextId` supplies fresh
handle ids. -/
structure AsyncSched where
  tracked : Option Nat
  pending : List Nat
  suspended : Nat
  nextId : Nat
deriving Repr, DecidableEq

/-- Event-loop events of the interleaved execution:
`notify` — a `stateChanged` emission runs `handleStateChange` synchronously:
`cancelCurrentTimer` (clearTimeout on the tracked handle, null it), then
`processRotation` starts (its own `cancelCurrentTimer` is then a no-op) and
parks at its first `await`;
`resume` — the event loop resumes one parked invocation to completion: when
its branch arms (`arms = true`), `setTimeout` makes a fresh timer pending and
`currentTimer` is overwritten to it — a previously tracked timer stays
pending but untracked;
`fire` — a pending timer expires (no longer pending); its callback sets
`currentTimer = null` unconditionally and calls `processRotation`, which
parks at its first `await`. -/
inductive AsyncEvent where
  | notify
  | resume (arms : Bool)
  | fire (id : Nat)
deriving Repr, DecidableEq

/-- One event-loop step of the interleaved execution (see `AsyncEvent`). -/
def asyncStep : AsyncEvent → AsyncSched → AsyncSched
  | AsyncEvent.notify, s =>
      ⟨none,
       (match s.tracked with
        | some t => s.pending.erase t
        | none => s.pending),
       s.suspended + 1, s.nextId⟩
  | AsyncEvent.resume arms, s =>
      if s.suspended = 0 then s
      else if arms then
        ⟨some s.nextId, s.pending ++ [s.nextId], s.suspended - 1, s.nextId + 1⟩
      else
        ⟨s.tracked, s.pending, s.suspended - 1, s.nextId⟩
  | AsyncEvent.fire id, s =>
      if s.pending.contains id then
        ⟨none, s.pending.erase id, s.suspended + 1, s.nextId⟩
      else s

/-- Run the interleaved model over an event sequence. -/
def runAsync : List AsyncEvent → AsyncSched → AsyncSched
  | [], s => s
  | e :: es, s => runAsync es (asyncStep e s)

/-- A re-evaluation trigger in the interleaved model: a configuration
notification, or the expiry of the pending timer with the given id. -/
inductive ReevalTrigger where
  | notify
  | timerExpiry (id : Nat)
deriving Repr, DecidableEq

/-- The event-loop event a trigger begins with. -/
def triggerEvent : ReevalTrigger → AsyncEvent
  | ReevalTrigger.notify => AsyncEvent.notify
  | ReevalTrigger.timerExpiry id => AsyncEvent.fire id

/-- A *serialized* run in the interleaved model: each trigger's invocation is
resumed to completion (arming a timer or not, per its branch) before the next
trigger arrives.  Collects every intermediate state — the one before each
entry and the mid-entry state at the suspension point. -/
def serializedTrace : List (ReevalTrigger × Bool) → AsyncSched → List AsyncSched
  | [], s => [s]
  | e :: es, s =>
      let mid := asyncStep (triggerEvent e.1) s
      s :: mid :: serializedTrace es (asyncStep (AsyncEvent.resume e.2) mid)

/-- The check the scheduler applies to decide whether the current schedule
item's camera is usable: it resolves when the filtered source list contains a
source with that id. -/
def resolves (selected : List Int) (sources : List Source) (cameraId : Int) :
    Bool :=
  ((getAvailableSources selected sources).find? (fun s => s.id == cameraId)).isSome

/-- Resolvability as the spec words it (§4.2 step 3): the fetched list has a
source with that id that is enabled, of the rotation-eligible type, and — if
the selection is non-empty — selected.  (The spec's step 5 additionally
claims an unhealthy camera does not resolve; health is deliberately absent
here so the two definitions can be compared.) -/
def specResolvable (selected : List Int) (sources : List Source)
    (cameraId : Int) : Bool :=
  sources.any (fun s =>
    s.id == cameraId && s.enabled.getD false && s.source_type == "srt" &&
      (selected.isEmpty || selected.contains s.id))

/-- The §3 invariant on `currentScheduleIndex`, as the claim words it: null
whenever rotation is disabled or the schedule is empty, otherwise a valid
index into the schedule. -/
def scheduleIndexInvariant (st : SwitcherState) : Bool :=
  if !st.rotationEnabled || st.rotationSchedule.isEmpty then
    st.currentScheduleIndex.isNone
  else
    match st.currentScheduleIndex with
    | some i => decide (i < st.rotationSchedule.length)
    | none => false

lemma saveState_st (w e : Bool) (sys : Sys) : (saveState w e sys).1.st = sys.st := by
  unfold saveState; split <;> rfl

lemma saveState_false_notifs (w : Bool) (sys : Sys) :
    (saveState w false sys).2 = 0 := by
  unfold saveState; split <;> rfl

lemma switchToSource_preserves (env : Env) (sourceId : Int) (sys : Sys) :
    (switchToSource env sourceId sys).1.st.rotationEnabled = sys.st.rotationEnabled ∧
    (switchToSource env sourceId sys).1.st.rotationSchedule = sys.st.rotationSchedule ∧
    (switchToSource env sourceId sys).1.st.currentScheduleIndex = sys.st.currentScheduleIndex ∧
    (switchToSource env sourceId sys).1.st.selectedCameraIds = sys.st.selectedCameraIds ∧
    (switchToSource env sourceId sys).1.st.fixedSourceId = sys.st.fixedSourceId ∧
    (switchToSource env sourceId sys).2.2.notifs = 0 ∧
    (switchToSource env sourceId sys).2.2.timersArmed = [] := by
  unfold switchToSource saveState
  split
  · split <;> simp_all
  · simp_all

lemma handleFixedSource_preserves (env : Env) (sources : List Source) (sys : Sys) :
    (handleFixedSource env sources sys).1.st.rotationEnabled = sys.st.rotationEnabled ∧
    (handleFixedSource env sources sys).1.st.rotationSchedule = sys.st.rotationSchedule ∧
    (handleFixedSource env sources sys).1.st.currentScheduleIndex = sys.st.currentScheduleIndex ∧
    (handleFixedSource env sources sys).2.notifs = 0 ∧
    (handleFixedSource env sources sys).2.timersArmed = [] := by
  unfold handleFixedSource
  split
  case _ fid hfid =>
    split
    case _ src hsrc =>
      split
      · split
        · have h := switchToSource_preserves env fid sys
          exact ⟨h.1, h.2.1, h.2.2.1, h.2.2.2.2.2.1, h.2.2.2.2.2.2⟩
        · exact ⟨rfl, rfl, rfl, rfl, rfl⟩
      · exact ⟨rfl, rfl, rfl, rfl, rfl⟩
    case _ => exact ⟨rfl, rfl, rfl, rfl, rfl⟩
  case _ => exact ⟨rfl, rfl, rfl, rfl, rfl⟩

lemma switchToSource_rotationEnabled (env : Env) (sourceId : Int) (sys : Sys) :
    (switchToSource env sourceId sys).1.st.rotationEnabled = sys.st.rotationEnabled :=
  (switchToSource_preserves env sourceId sys).1

lemma switchToSource_rotationSchedule (env : Env) (sourceId : Int) (sys : Sys) :
    (switchToSource env sourceId sys).1.st.rotationSchedule = sys.st.rotationSchedule :=
  (switchToSource_preserves env sourceId sys).2.1

lemma switchToSource_index (env : Env) (sourceId : Int) (sys : Sys) :
    (switchToSource env sourceId sys).1.st.currentScheduleIndex = sys.st.currentScheduleIndex :=
  (switchToSource_preserves env sourceId sys).2.2.1

lemma switchToSource_selected (env : Env) (sourceId : Int) (sys : Sys) :
    (switchToSource env sourceId sys).1.st.selectedCameraIds = sys.st.selectedCameraIds :=
  (switchToSource_preserves env sourceId sys).2.2.2.1

lemma switchToSource_notifs (env : Env) (sourceId : Int) (sys : Sys) :
    (switchToSource env sourceId sys).2.2.notifs = 0 :=
  (switchToSource_preserves env sourceId sys).2.2.2.2.2.1

lemma switchToSource_timers (env : Env) (sourceId : Int) (sys : Sys) :
    (switchToSource env sourceId sys).2.2.timersArmed = [] :=
  (switchToSource_preserves env sourceId sys).2.2.2.2.2.2

lemma handleFixedSource_rotationEnabled (env : Env) (srcs : List Source) (sys : Sys) :
    (handleFixedSource env srcs sys).1.st.rotationEnabled = sys.st.rotationEnabled :=
  (handleFixedSource_preserves env srcs sys).1

lemma handleFixedSource_rotationSchedule (env : Env) (srcs : List Source) (sys : Sys) :
    (handleFixedSource env srcs sys).1.st.rotationSchedule = sys.st.rotationSchedule :=
  (handleFixedSource_preserves env srcs sys).2.1

lemma handleFixedSource_index (env : Env) (srcs : List Source) (sys : Sys) :
    (handleFixedSource env srcs sys).1.st.currentScheduleIndex = sys.st.currentScheduleIndex :=
  (handleFixedSource_preserves env srcs sys).2.2.1

lemma handleFixedSource_notifs (env : Env) (srcs : List Source) (sys : Sys) :
    (handleFixedSource env srcs sys).2.notifs = 0 :=
  (handleFixedSource_preserves env srcs sys).2.2.2.1

lemma handleFixedSource_timers (env : Env) (srcs : List Source) (sys : Sys) :
    (handleFixedSource env srcs sys).2.timersArmed = [] :=
  (handleFixedSource_preserves env srcs sys).2.2.2.2

lemma effectsAppend_notifs (a b : Effects) :
    (Effects.append a b).notifs = a.notifs + b.notifs := rfl

lemma effectsAppend_timers (a b : Effects) :
    (Effects.append a b).timersArmed = a.timersArmed ++ b.timersArmed := rfl

lemma rotDisabled_notifs (env : Env) (srcs : List Source) (sys : Sys) :
    (rotDisabled env srcs sys).2.notifs = 0 := by
  unfold rotDisabled
  split
  all_goals
    simp [effectsAppend_notifs, handleFixedSource_notifs,
      saveState_false_notifs, Effects.none]

lemma rotDisabled_timers (env : Env) (srcs : List Source) (sys : Sys) :
    (rotDisabled env srcs sys).2.timersArmed = [] := by
  unfold rotDisabled
  split
  all_goals
    simp [effectsAppend_timers, handleFixedSource_timers, Effects.none]

lemma rotDisabled_rotationEnabled (env : Env) (srcs : List Source) (sys : Sys) :
    (rotDisabled env srcs sys).1.st.rotationEnabled = sys.st.rotationEnabled := by
  unfold rotDisabled
  split
  all_goals
    simp [handleFixedSource_rotationEnabled, saveState_st]

lemma rotDisabled_index_none (env : Env) (srcs : List Source) (sys : Sys) :
    (rotDisabled env srcs sys).1.st.currentScheduleIndex = none := by
  unfold rotDisabled
  split
  · simp [handleFixedSource_index, saveState_st]
  · rename_i hcond
    simpa [handleFixedSource_index] using hcond

lemma rotActive_notifs (env : Env) (srcs : List Source) (sys1 : Sys) :
    (rotActive env srcs sys1).2.notifs = 0 := by
  unfold rotActive
  dsimp only
  split
  all_goals
    simp [effectsAppend_notifs, switchToSource_notifs, saveState_false_notifs]

lemma rotActive_timers_len (env : Env) (srcs : List Source) (sys1 : Sys) :
    ((rotActive env srcs sys1).2.timersArmed).length = 1 := by
  unfold rotActive
  dsimp only
  split
  all_goals
    simp [effectsAppend_timers, switchToSource_timers]

lemma rotActive_index (env : Env) (srcs : List Source) (sys1 : Sys) :
    (rotActive env srcs sys1).1.st.currentScheduleIndex =
      some ((sys1.st.currentScheduleIndex.getD 0 + 1) %
        sys1.st.rotationSchedule.length) := by
  unfold rotActive
  dsimp only
  split
  · simp [saveState_st, switchToSource_index, switchToSource_rotationSchedule]
  · simp [saveState_st]

lemma rotActive_rotationEnabled (env : Env) (srcs : List Source) (sys1 : Sys) :
    (rotActive env srcs sys1).1.st.rotationEnabled = sys1.st.rotationEnabled := by
  unfold rotActive
  dsimp only
  split
  · simp [saveState_st, switchToSource_rotationEnabled]
  · simp [saveState_st]

lemma rotActive_rotationSchedule (env : Env) (srcs : List Source) (sys1 : Sys) :
    (rotActive env srcs sys1).1.st.rotationSchedule = sys1.st.rotationSchedule := by
  unfold rotActive
  dsimp only
  split
  · simp [saveState_st, switchToSource_rotationSchedule]
  · simp [saveState_st]

lemma processRotation_notifs (ss : Bool) (env : Env) (srcs : List Source)
    (sys : Sys) : (processRotation ss env srcs sys).2.notifs = 0 := by
  unfold processRotation
  split
  · rfl
  · split
    · exact rotDisabled_notifs env srcs sys
    · split
      · rfl
      · split
        all_goals
          simp [effectsAppend_notifs, rotActive_notifs,
            saveState_false_notifs, Effects.none]

lemma processRotation_timers_le_one (ss : Bool) (env : Env)
    (srcs : List Source) (sys : Sys) :
    ((processRotation ss env srcs sys).2.timersArmed).length ≤ 1 := by
  unfold processRotation
  split
  · simp [Effects.none]
  · split
    · simp [rotDisabled_timers]
    · split
      · simp [Effects.none]
      · split
        all_goals
          simp [effectsAppend_timers, rotActive_timers_len, Effects.none]

lemma schedulerStep_notifs (env : Env) (srcs : List Source) (t : Trigger)
    (s : SchedulerSys) :
    (schedulerStep env srcs t s).2.notifs = 0 :=
  processRotation_notifs false env srcs s.sys

lemma optionToList_length_le_one (o : Option Nat) : o.toList.length ≤ 1 := by
  cases o <;> simp

lemma asyncEntry_inv (t : ReevalTrigger) (arms : Bool) (s : AsyncSched)
    (h1 : s.pending = s.tracked.toList) (h2 : s.suspended = 0) :
    (asyncStep (triggerEvent t) s).pending.length ≤ 1 ∧
    (asyncStep (AsyncEvent.resume arms) (asyncStep (triggerEvent t) s)).pending =
      (asyncStep (AsyncEvent.resume arms) (asyncStep (triggerEvent t) s)).tracked.toList ∧
    (asyncStep (AsyncEvent.resume arms) (asyncStep (triggerEvent t) s)).suspended = 0 := by
  cases t with
  | notify =>
      have hmid : asyncStep (triggerEvent ReevalTrigger.notify) s =
          ⟨none, [], s.suspended + 1, s.nextId⟩ := by
        cases ht : s.tracked <;>
          simp [asyncStep, triggerEvent, h1, ht]
      rw [hmid]
      cases arms <;> simp [asyncStep, h2]
  | timerExpiry id =>
      cases ht : s.tracked with
      | none =>
          have h0 : s.pending = [] := by rw [h1, ht]; rfl
          have hmid : asyncStep (triggerEvent (ReevalTrigger.timerExpiry id)) s = s := by
            simp [asyncStep, triggerEvent, h0]
          rw [hmid]
          refine ⟨by rw [h0]; simp, ?_, ?_⟩ <;>
            simp [asyncStep, h2, h1, h0, ht]
      | some tt =>
          have h0 : s.pending = [tt] := by rw [h1, ht]; rfl
          by_cases hid : id = tt
          · subst hid
            have hmid : asyncStep (triggerEvent (ReevalTrigger.timerExpiry id)) s =
                ⟨none, [], s.suspended + 1, s.nextId⟩ := by
              simp [asyncStep, triggerEvent, h0]
            rw [hmid]
            cases arms <;> simp [asyncStep, h2]
          · have hmid : asyncStep (triggerEvent (ReevalTrigger.timerExpiry id)) s = s := by
              simp [asyncStep, triggerEvent, h0, hid]
            rw [hmid]
            refine ⟨by rw [h0]; simp, ?_, ?_⟩ <;>
              simp [asyncStep, h2, h1, ht]

lemma serializedTrace_pending_le_one (entries : List (ReevalTrigger × Bool))
    (init : AsyncSched) (h1 : init.pending = init.tracked.toList)
    (h2 : init.suspended = 0) :
    ((serializedTrace entries init).all
      (fun s => decide (s.pending.length ≤ 1))) = true := by
  induction entries generalizing init with
  | nil =>
      simp only [serializedTrace, List.all_cons, List.all_nil, Bool.and_true,
        decide_eq_true_eq]
      rw [h1]
      exact optionToList_length_le_one _
  | cons e es ih =>
      obtain ⟨hm, hp1, hp2⟩ := asyncEntry_inv e.1 e.2 init h1 h2
      simp only [serializedTrace, List.all_cons, Bool.and_eq_true,
        decide_eq_true_eq]
      refine ⟨?_, hm, ih _ hp1 hp2⟩
      rw [h1]
      exact optionToList_length_le_one _

/-- C2: every operational mutation — updating `currentSourceId` and
`lastSwitchTime` after a successful switch inside `switchToSource`, or
updating `currentScheduleIndex` inside the scheduler — goes through
`saveState(false)`, so any sequence of scheduler entries (which perform only
operational mutations) emits zero `stateChanged` notifications, whatever the
triggers, the sources, the switch outcomes and the write outcomes. -/
theorem operational_mutations_emit_no_notification (env : Env)
    (srcs : List Source) (trigs : List Trigger) (init : SchedulerSys) :
    (schedulerTrace env srcs trigs init).2 = 0 := by
  induction trigs generalizing init with
  | nil => rfl
  | cons t ts ih =>
      simp [schedulerTrace, schedulerStep_notifs, ih]

/-- C3 counterexample: the "at most one pending timer at every point" claim
is false of the program.  Two `stateChanged` notifications arrive while the
first re-evaluation is suspended at its `await` (real in rotation.ts:
`handleStateChange` starts `processRotation` immediately, with no deferral or
reentrancy guard); each invocation then resumes and arms its `setTimeout`.
The second arm overwrites `currentTimer`, leaving the first timer pending
but untracked: two timers are pending. -/
theorem overlapping_reevaluations_leave_two_pending_timers :
    (runAsync [AsyncEvent.notify, AsyncEvent.notify, AsyncEvent.resume true,
      AsyncEvent.resume true] ⟨none, [], 0, 0⟩).pending.length = 2 ∧
    ¬ ((runAsync [AsyncEvent.notify, AsyncEvent.notify, AsyncEvent.resume true,
      AsyncEvent.resume true] ⟨none, [], 0, 0⟩).pending.length ≤ 1) := by
  decide

/-- C3 amended: each `processRotation` code path arms at most one new timer,
and the pending-timer count stays at most one at every point of every run in
which re-evaluations never overlap — each entry's invocation is resumed to
completion before the next trigger.  When re-evaluations do overlap (a
notification lands while one is suspended at an `await`), the bound fails:
see the counterexample. -/
theorem at_most_one_pending_timer_when_serialized (ss : Bool) (env : Env)
    (srcs : List Source) (sys : Sys)
    (entries : List (ReevalTrigger × Bool)) (init : AsyncSched)
    (h1 : init.pending = init.tracked.toList) (h2 : init.suspended = 0) :
    ((processRotation ss env srcs sys).2.timersArmed).length ≤ 1 ∧
    ((serializedTrace entries init).all
      (fun s => decide (s.pending.length ≤ 1))) = true :=
  ⟨processRotation_timers_le_one ss env srcs sys,
    serializedTrace_pending_le_one entries init h1 h2⟩

/-- C3 witness: a concrete serialized run (notification, expiry of the armed
timer, then a notification whose branch arms nothing) keeps the pending
count at most one throughout, and the concrete `processRotation` entry arms
one timer. -/
theorem at_most_one_pending_timer_when_serialized_witness :
    ((processRotation false ⟨fun _ => true, true, 0⟩
        [⟨1, "srt", some true, some true⟩]
        ⟨defaultState, none⟩).2.timersArmed).length ≤ 1 ∧
    ((serializedTrace
        [(ReevalTrigger.notify, true), (ReevalTrigger.timerExpiry 0, true),
         (ReevalTrigger.notify, false)]
        ⟨none, [], 0, 0⟩).all
      (fun s => decide (s.pending.length ≤ 1))) = true :=
  at_most_one_pending_timer_when_serialized false ⟨fun _ => true, true, 0⟩
    [⟨1, "srt", some true, some true⟩] ⟨defaultState, none⟩
    [(ReevalTrigger.notify, true), (ReevalTrigger.timerExpiry 0, true),
     (ReevalTrigger.notify, false)]
    ⟨none, [], 0, 0⟩ (by decide) (by decide)

/-- C1 counterexample: a `PUT /api/state` call whose persistence write fails
emits zero notifications, not exactly one — `stateEvents.emit` sits after the
file write inside the same `try` block, so a write error skips it. -/
theorem config_notification_lost_on_write_error :
    (configMutation false ⟨some false, none, none, none⟩
      ⟨⟨true, none, [], [⟨1, 60⟩], none, none, some 0⟩, none⟩).2 = 0 ∧
    (configMutation false ⟨some false, none, none, none⟩
      ⟨⟨true, none, [], [⟨1, 60⟩], none, none, some 0⟩, none⟩).2 ≠ 1 := by
  decide

/-- C1 amended: every configuration mutation call whose persistence write
succeeds emits exactly one notification, regardless of how many fields the
body carries, so N such calls emit exactly N notifications. -/
theorem config_mutations_notify_once_per_successful_call
    (calls : List (PartialState × Bool)) (sys : Sys)
    (h : ∀ c ∈ calls, c.2 = true) :
    (runConfigCalls calls sys).2 = calls.length := by
  induction calls generalizing sys with
  | nil => rfl
  | cons c cs ih =>
      have hc : c.2 = true := h c (List.mem_cons_self c cs)
      simp [runConfigCalls, configMutation, saveState, hc, Nat.add_comm,
        ih _ (fun d hd => h d (List.mem_cons_of_mem c hd))]

/-- C1 witness: two successful configuration calls — one touching a single
field, one touching all four — emit exactly two notifications. -/
theorem config_mutations_notify_once_per_successful_call_witness :
    (runConfigCalls
      [(⟨some true, none, none, none⟩, true),
       (⟨some false, some (some 5), some [1, 3], some [⟨1, 60⟩]⟩, true)]
      ⟨defaultState, none⟩).2 =
    List.length
      [((⟨some true, none, none, none⟩ : PartialState), true),
       (⟨some false, some (some 5), some [1, 3], some [⟨1, 60⟩]⟩, true)] :=
  config_mutations_notify_once_per_successful_call _ _ (by decide)

lemma processRotation_disabled_state (env : Env) (srcs : List Source)
    (sys : Sys) (h : sys.st.rotationEnabled = false) :
    (processRotation false env srcs sys).1.st.rotationEnabled = false ∧
    (processRotation false env srcs sys).1.st.currentScheduleIndex = none := by
  unfold processRotation
  simp only [h, Bool.not_false, if_true, Bool.false_eq_true, if_false]
  exact ⟨(rotDisabled_rotationEnabled env srcs sys).trans h,
    rotDisabled_index_none env srcs sys⟩

lemma processRotation_empty_schedule (env : Env) (srcs : List Source)
    (sys : Sys) (h1 : sys.st.rotationEnabled = true)
    (h2 : sys.st.rotationSchedule.length = 0) :
    processRotation false env srcs sys = (sys, Effects.none) := by
  unfold processRotation
  simp [h1, h2]

lemma processRotation_active_index (env : Env) (srcs : List Source)
    (sys : Sys) (h1 : sys.st.rotationEnabled = true)
    (h2 : sys.st.rotationSchedule.length ≠ 0) :
    ∃ m, (processRotation false env srcs sys).1.st.currentScheduleIndex = some m ∧
      m < sys.st.rotationSchedule.length ∧
      (processRotation false env srcs sys).1.st.rotationEnabled = true ∧
      (processRotation false env srcs sys).1.st.rotationSchedule = sys.st.rotationSchedule := by
  have hpos : 0 < sys.st.rotationSchedule.length := Nat.pos_of_ne_zero h2
  unfold processRotation
  simp only [h1, Bool.not_true, Bool.false_eq_true, if_false, h2, beq_iff_eq,
    if_true, if_neg]
  split
  · -- the index was reset to 0 and persisted
    refine ⟨(0 + 1) % sys.st.rotationSchedule.length, ?_, Nat.mod_lt _ hpos,
      ?_, ?_⟩
    · simp [rotActive_index, saveState_st]
    · simp [rotActive_rotationEnabled, saveState_st, h1]
    · simp [rotActive_rotationSchedule, saveState_st]
  · -- the index was already valid
    rename_i hcond
    rw [not_or] at hcond
    obtain ⟨hne, hlt⟩ := hcond
    obtain ⟨i, hi⟩ := Option.ne_none_iff_exists.mp hne
    refine ⟨(i + 1) % sys.st.rotationSchedule.length, ?_, Nat.mod_lt _ hpos,
      ?_, ?_⟩
    · simp [rotActive_index, ← hi]
    · simp [rotActive_rotationEnabled, h1]
    · simp [rotActive_rotationSchedule]

lemma apiPutState_schedule (body : PartialState) (st : SwitcherState) :
    (apiPutState body st).rotationSchedule =
      body.rotationSchedule.getD st.rotationSchedule := by
  obtain ⟨be, bf, bs, bsched⟩ := body
  unfold apiPutState
  cases be <;> cases bf <;> cases bs <;> cases bsched <;> dsimp only
  all_goals try rfl
  all_goals
    rcases st.currentScheduleIndex with _ | i <;>
      first
        | rfl
        | (dsimp only; split <;> rfl)

lemma apiPutState_empty_schedule_none (body : PartialState)
    (st : SwitcherState)
    (h0 : st.rotationSchedule = [] → st.currentScheduleIndex = none)
    (he : (apiPutState body st).rotationSchedule = []) :
    (apiPutState body st).currentScheduleIndex = none := by
  rw [apiPutState_schedule] at he
  obtain ⟨be, bf, bs, bsched⟩ := body
  cases bsched with
  | none =>
      simp only [Option.getD_none] at he
      have hidx := h0 he
      unfold apiPutState
      cases be <;> cases bf <;> cases bs <;> simp [hidx]
  | some sched =>
      simp only [Option.getD_some] at he
      subst he
      unfold apiPutState
      cases be <;> cases bf <;> cases bs <;>
        cases hcsi : st.currentScheduleIndex <;> simp [hcsi]

lemma invariant_empty_schedule (st : SwitcherState)
    (h : scheduleIndexInvariant st = true) (he : st.rotationSchedule = []) :
    st.currentScheduleIndex = none := by
  unfold scheduleIndexInvariant at h
  rw [he] at h
  simpa using h

/-- C4 counterexample: disabling rotation through `PUT /api/state` leaves the
previously valid non-null `currentScheduleIndex` in place, so immediately
after this Control-API mutation of `rotationEnabled` the invariant is
violated (it is restored only by the re-evaluation the notification
triggers). -/
theorem index_invariant_broken_right_after_mutation :
    scheduleIndexInvariant ⟨true, none, [], [⟨1, 60⟩], none, none, some 0⟩ = true ∧
    scheduleIndexInvariant
      (apiPutState ⟨some false, none, none, none⟩
        ⟨true, none, [], [⟨1, 60⟩], none, none, some 0⟩) = false := by
  decide

/-- C4 amended: the invariant is inductive across mutation plus
re-evaluation — if the state satisfies it before a `PUT /api/state` mutation,
it satisfies it again after the `processRotation` re-evaluation that the
mutation triggers (rather than immediately after the mutation itself). -/
theorem index_invariant_holds_after_reevaluation (body : PartialState)
    (st : SwitcherState) (env : Env) (srcs : List Source)
    (disk : Option SwitcherState)
    (h : scheduleIndexInvariant st = true) :
    scheduleIndexInvariant
      (processRotation false env srcs ⟨apiPutState body st, disk⟩).1.st = true := by
  set st1 := apiPutState body st with hst1
  cases hen : st1.rotationEnabled
  · -- rotation disabled after the mutation: the scheduler clears the index
    have hd := processRotation_disabled_state env srcs ⟨st1, disk⟩ hen
    unfold scheduleIndexInvariant
    rw [hd.1, hd.2]
    simp
  · cases hlen : st1.rotationSchedule.length with
    | zero =>
        -- schedule empty: re-evaluation is a no-op and the index was already null
        rw [processRotation_empty_schedule env srcs ⟨st1, disk⟩ hen hlen]
        have hnil : st1.rotationSchedule = [] := List.length_eq_zero.mp hlen
        have hnone : st1.currentScheduleIndex = none :=
          apiPutState_empty_schedule_none body st
            (invariant_empty_schedule st h) hnil
        unfold scheduleIndexInvariant
        rw [hnil, hnone]
        simp
    | succ n =>
        obtain ⟨m, hm, hmlt, hen2, hsched⟩ :=
          processRotation_active_index env srcs ⟨st1, disk⟩ hen
            (by rw [hlen]; exact Nat.succ_ne_zero n)
        unfold scheduleIndexInvariant
        rw [hm, hen2, hsched]
        have hne : ¬ st1.rotationSchedule.isEmpty = true := by
          rw [List.isEmpty_iff]
          intro hcontra
          rw [hcontra] at hlen
          simp at hlen
        simp [hne, hmlt]

/-- C4 witness: a mutation that enables rotation over a two-item schedule,
followed by the triggered re-evaluation, lands in an invariant-satisfying
state. -/
theorem index_invariant_holds_after_reevaluation_witness :
    scheduleIndexInvariant
      (processRotation false ⟨fun _ => true, true, 5⟩
        [⟨1, "srt", some true, some true⟩]
        ⟨apiPutState ⟨some true, none, none, some [⟨1, 60⟩, ⟨2, 120⟩]⟩
            defaultState, none⟩).1.st = true :=
  index_invariant_holds_after_reevaluation _ _ _ _ _ (by decide)

lemma effectsAppend_attempts (a b : Effects) :
    (Effects.append a b).switchAttempts = a.switchAttempts ++ b.switchAttempts := rfl

lemma effectsAppend_none_left (e : Effects) :
    Effects.append Effects.none e = e := by
  unfold Effects.append Effects.none
  cases e
  simp

lemma switchToSource_attempts (env : Env) (sourceId : Int) (sys : Sys) :
    (switchToSource env sourceId sys).2.2.switchAttempts = [sourceId] := by
  unfold switchToSource saveState
  split
  · split <;> rfl
  · rfl

lemma processRotation_disabled_eq (env : Env) (srcs : List Source) (sys : Sys)
    (h : sys.st.rotationEnabled = false) :
    processRotation false env srcs sys = rotDisabled env srcs sys := by
  unfold processRotation
  simp [h]

lemma processRotation_no_reset (env : Env) (srcs : List Source) (sys : Sys)
    (i : Nat) (h1 : sys.st.rotationEnabled = true)
    (hidx : sys.st.currentScheduleIndex = some i)
    (hi : i < sys.st.rotationSchedule.length) :
    processRotation false env srcs sys = rotActive env srcs sys := by
  have hne : sys.st.rotationSchedule.length ≠ 0 := by omega
  have h2 : (sys.st.rotationSchedule.length == 0) = false := by
    simp [hne]
  have hgei : ¬ i ≥ sys.st.rotationSchedule.length := Nat.not_le.mpr hi
  unfold processRotation
  simp [h1, h2, hidx, hgei, effectsAppend_none_left]

lemma rotActive_found_success (env : Env) (srcs : List Source) (sys1 : Sys)
    (i : Nat) (src : Source)
    (hidx : sys1.st.currentScheduleIndex = some i)
    (hi : i < sys1.st.rotationSchedule.length)
    (hfind : (getAvailableSources sys1.st.selectedCameraIds srcs).find?
        (fun s => s.id == (sys1.st.rotationSchedule.getD i ⟨0, 0⟩).cameraId) = some src)
    (hok : env.switchOk (sys1.st.rotationSchedule.getD i ⟨0, 0⟩).cameraId = true)
    (hw : env.writeOk = true) :
    rotActive env srcs sys1 =
      (⟨{ sys1.st with
            currentSourceId := some (sys1.st.rotationSchedule.getD i ⟨0, 0⟩).cameraId,
            lastSwitchTime := some env.now,
            currentScheduleIndex := some ((i + 1) % sys1.st.rotationSchedule.length) },
         some { sys1.st with
            currentSourceId := some (sys1.st.rotationSchedule.getD i ⟨0, 0⟩).cameraId,
            lastSwitchTime := some env.now }⟩,
       ⟨[(sys1.st.rotationSchedule.getD i ⟨0, 0⟩).cameraId], [false, false],
        [(sys1.st.rotationSchedule.getD i ⟨0, 0⟩).durationSeconds * 1000], 0⟩) := by
  unfold rotActive
  dsimp only
  rw [hidx]
  simp only [Option.getD_some]
  rw [Nat.mod_eq_of_lt hi, hfind]
  unfold switchToSource saveState
  simp only [hok, hw, if_true, Effects.append, hidx]
  simp [hidx]

lemma rotActive_found_fail (env : Env) (srcs : List Source) (sys1 : Sys)
    (i : Nat) (src : Source)
    (hidx : sys1.st.currentScheduleIndex = some i)
    (hi : i < sys1.st.rotationSchedule.length)
    (hfind : (getAvailableSources sys1.st.selectedCameraIds srcs).find?
        (fun s => s.id == (sys1.st.rotationSchedule.getD i ⟨0, 0⟩).cameraId) = some src)
    (hok : env.switchOk (sys1.st.rotationSchedule.getD i ⟨0, 0⟩).cameraId = false)
    (hw : env.writeOk = true) :
    rotActive env srcs sys1 =
      (⟨{ sys1.st with
            currentScheduleIndex := some ((i + 1) % sys1.st.rotationSchedule.length) },
         some sys1.st⟩,
       ⟨[(sys1.st.rotationSchedule.getD i ⟨0, 0⟩).cameraId], [false],
        [(sys1.st.rotationSchedule.getD i ⟨0, 0⟩).durationSeconds * 1000], 0⟩) := by
  unfold rotActive
  dsimp only
  rw [hidx]
  simp only [Option.getD_some]
  rw [Nat.mod_eq_of_lt hi, hfind]
  unfold switchToSource saveState
  simp only [hok, hw, Bool.false_eq_true, if_false, if_true, Effects.append]
  simp [hidx]

lemma rotActive_notfound (env : Env) (srcs : List Source) (sys1 : Sys)
    (i : Nat)
    (hidx : sys1.st.currentScheduleIndex = some i)
    (hi : i < sys1.st.rotationSchedule.length)
    (hfind : (getAvailableSources sys1.st.selectedCameraIds srcs).find?
        (fun s => s.id == (sys1.st.rotationSchedule.getD i ⟨0, 0⟩).cameraId) = none)
    (hw : env.writeOk = true) :
    rotActive env srcs sys1 =
      (⟨{ sys1.st with
            currentScheduleIndex := some ((i + 1) % sys1.st.rotationSchedule.length) },
         some { sys1.st with
            currentScheduleIndex := some ((i + 1) % sys1.st.rotationSchedule.length) }⟩,
       ⟨[], [false], [5000], 0⟩) := by
  unfold rotActive
  dsimp only
  rw [hidx]
  simp only [Option.getD_some]
  rw [Nat.mod_eq_of_lt hi, hfind]
  unfold saveState
  simp [hw]

lemma find?_isSome_eq_any (p : α → Bool) (l : List α) :
    (l.find? p).isSome = l.any p := by
  induction l with
  | nil => rfl
  | cons a t ih =>
      cases ha : p a <;> simp [List.find?_cons, ha, ih]

lemma any_filter (l : List α) (p q : α → Bool) :
    (l.filter p).any q = l.any (fun a => p a && q a) := by
  induction l with
  | nil => rfl
  | cons a t ih =>
      cases hp : p a <;> simp [List.filter_cons, hp, ih]

lemma any_congr_fun (l : List α) (p q : α → Bool) (h : ∀ a, p a = q a) :
    l.any p = l.any q := by
  induction l with
  | nil => rfl
  | cons a t ih => simp [List.any_cons, h a, ih]

lemma resolves_eq_spec (selected : List Int) (srcs : List Source) (c : Int) :
    resolves selected srcs c = specResolvable selected srcs c := by
  unfold resolves specResolvable getAvailableSources
  rcases selected with _ | ⟨a, rest⟩
  · simp only [List.length_nil, gt_iff_lt, lt_self_iff_false, if_false,
      List.isEmpty_nil, Bool.true_or]
    rw [find?_isSome_eq_any, any_filter]
    apply any_congr_fun
    intro s
    cases s.enabled.getD false <;> cases hb : s.source_type == "srt" <;>
      cases s.id == c <;> simp
  · simp only [List.length_cons, gt_iff_lt, Nat.succ_pos, if_true,
      List.isEmpty_cons, Bool.false_or]
    rw [find?_isSome_eq_any, any_filter, any_filter]
    apply any_congr_fun
    intro s
    cases s.enabled.getD false <;> cases hb : s.source_type == "srt" <;>
      cases s.id == c <;> cases (a :: rest).contains s.id <;> simp

lemma handleFixedSource_attempts (env : Env) (srcs : List Source) (sys : Sys)
    (f : Int) (src : Source)
    (hfid : sys.st.fixedSourceId = some f)
    (hfind : srcs.find? (fun s => s.id == f) = some src)
    (hen : src.enabled.getD false = true) :
    (handleFixedSource env srcs sys).2.switchAttempts =
      if sys.st.currentSourceId = some f then [] else [f] := by
  unfold handleFixedSource
  simp only [hfid, hfind, hen, if_true]
  split
  · exact switchToSource_attempts env f sys
  · rename_i hnn
    rw [not_not] at hnn
    rw [if_pos hnn]
    rfl

lemma rotDisabled_attempts (env : Env) (srcs : List Source) (sys : Sys)
    (f : Int) (src : Source)
    (hfid : sys.st.fixedSourceId = some f)
    (hfind : srcs.find? (fun s => s.id == f) = some src)
    (hen : src.enabled.getD false = true) :
    (rotDisabled env srcs sys).2.switchAttempts =
      if sys.st.currentSourceId = some f then [] else [f] := by
  unfold rotDisabled
  split
  · rw [effectsAppend_attempts]
    have hfid2 : ((saveState env.writeOk false
        { sys with st := { sys.st with currentScheduleIndex := none } }).1).st.fixedSourceId =
          some f := by
      rw [saveState_st]
      exact hfid
    rw [handleFixedSource_attempts env srcs _ f src hfid2 hfind hen]
    simp [saveState_st]
  · rw [effectsAppend_attempts]
    rw [handleFixedSource_attempts env srcs sys f src hfid hfind hen]
    simp [Effects.none]

/-- C5 counterexample: schedule `[{9, 30}]` with camera 9 available but the
switch call failing — the scheduler arms the full 30 s timer (30000 ms), not
the claimed 5-second retry, because `processRotation` ignores the result of
`switchToSource`. -/
theorem switch_failure_timer_is_full_duration_not_5s :
    (processRotation false ⟨fun _ => false, true, 42⟩
      [⟨9, "srt", some true, some true⟩]
      ⟨⟨true, none, [], [⟨9, 30⟩], none, none, some 0⟩, none⟩).2.timersArmed = [30000] ∧
    (processRotation false ⟨fun _ => false, true, 42⟩
      [⟨9, "srt", some true, some true⟩]
      ⟨⟨true, none, [], [⟨9, 30⟩], none, none, some 0⟩, none⟩).2.timersArmed ≠ [5000] := by
  decide

/-- C5 amended: when the current item's camera resolves but the switch call
fails, the scheduler still advances `currentScheduleIndex` exactly as on
success and arms the item's full `durationSeconds` timer (not a 5-second
retry); it leaves `currentSourceId`/`lastSwitchTime` unchanged, persists once
without a notification, and never aborts the schedule. -/
theorem switch_failure_advances_with_full_duration_timer (env : Env)
    (srcs : List Source) (sys : Sys) (i : Nat) (src : Source)
    (henabled : sys.st.rotationEnabled = true)
    (hidx : sys.st.currentScheduleIndex = some i)
    (hi : i < sys.st.rotationSchedule.length)
    (hfind : (getAvailableSources sys.st.selectedCameraIds srcs).find?
        (fun s => s.id == (sys.st.rotationSchedule.getD i ⟨0, 0⟩).cameraId) = some src)
    (hok : env.switchOk (sys.st.rotationSchedule.getD i ⟨0, 0⟩).cameraId = false)
    (hw : env.writeOk = true) :
    processRotation false env srcs sys =
      (⟨{ sys.st with
            currentScheduleIndex := some ((i + 1) % sys.st.rotationSchedule.length) },
         some sys.st⟩,
       ⟨[(sys.st.rotationSchedule.getD i ⟨0, 0⟩).cameraId], [false],
        [(sys.st.rotationSchedule.getD i ⟨0, 0⟩).durationSeconds * 1000], 0⟩) :=
  (processRotation_no_reset env srcs sys i henabled hidx hi).trans
    (rotActive_found_fail env srcs sys i src hidx hi hfind hok hw)

/-- C5 witness: the concrete failing switch of the counterexample, through
the amended theorem. -/
theorem switch_failure_advances_with_full_duration_timer_witness :
    processRotation false ⟨fun _ => false, true, 42⟩
        [⟨9, "srt", some true, some true⟩]
        ⟨⟨true, none, [], [⟨9, 30⟩], none, none, some 0⟩, none⟩ =
      (⟨⟨true, none, [], [⟨9, 30⟩], none, none, some 0⟩,
         some ⟨true, none, [], [⟨9, 30⟩], none, none, some 0⟩⟩,
       ⟨[9], [false], [30000], 0⟩) :=
  switch_failure_advances_with_full_duration_timer _ _ _ 0
    ⟨9, "srt", some true, some true⟩ rfl rfl (by decide) (by decide) rfl rfl

/-- C6 counterexample: in Scenario A the in-memory index advances to 1, but
the snapshot persisted during this step still records index 0 — the
`saveState(false)` runs before the advance (deliberately, per the source
comment), so the advanced index is not what gets persisted. -/
theorem advanced_index_not_persisted :
    (processRotation false ⟨fun _ => true, true, 42⟩
      [⟨1, "srt", some true, some true⟩, ⟨2, "srt", some true, some true⟩]
      ⟨⟨true, none, [], [⟨1, 60⟩, ⟨2, 120⟩], none, none, some 0⟩, none⟩).1.st.currentScheduleIndex = some 1 ∧
    ((processRotation false ⟨fun _ => true, true, 42⟩
      [⟨1, "srt", some true, some true⟩, ⟨2, "srt", some true, some true⟩]
      ⟨⟨true, none, [], [⟨1, 60⟩, ⟨2, 120⟩], none, none, some 0⟩, none⟩).1.disk.map
        SwitcherState.currentScheduleIndex) = some (some 0) ∧
    ((processRotation false ⟨fun _ => true, true, 42⟩
      [⟨1, "srt", some true, some true⟩, ⟨2, "srt", some true, some true⟩]
      ⟨⟨true, none, [], [⟨1, 60⟩, ⟨2, 120⟩], none, none, some 0⟩, none⟩).1.disk.map
        SwitcherState.currentScheduleIndex) ≠ some (some 1) := by
  decide

/-- C6 amended: on a resolved camera with a successful switch,
`currentSourceId`/`lastSwitchTime` are set to the item's camera and the
current time, the index is advanced in memory to `(i+1) mod len`, exactly one
timer of `durationSeconds * 1000` ms is armed and no notification fires — but
the persist happens before the advance, so the snapshot on disk records the
pre-advance index `i` (the item just switched to). -/
theorem successful_rotation_step (env : Env) (srcs : List Source) (sys : Sys)
    (i : Nat) (src : Source)
    (henabled : sys.st.rotationEnabled = true)
    (hidx : sys.st.currentScheduleIndex = some i)
    (hi : i < sys.st.rotationSchedule.length)
    (hfind : (getAvailableSources sys.st.selectedCameraIds srcs).find?
        (fun s => s.id == (sys.st.rotationSchedule.getD i ⟨0, 0⟩).cameraId) = some src)
    (hok : env.switchOk (sys.st.rotationSchedule.getD i ⟨0, 0⟩).cameraId = true)
    (hw : env.writeOk = true) :
    processRotation false env srcs sys =
      (⟨{ sys.st with
            currentSourceId := some (sys.st.rotationSchedule.getD i ⟨0, 0⟩).cameraId,
            lastSwitchTime := some env.now,
            currentScheduleIndex := some ((i + 1) % sys.st.rotationSchedule.length) },
         some { sys.st with
            currentSourceId := some (sys.st.rotationSchedule.getD i ⟨0, 0⟩).cameraId,
            lastSwitchTime := some env.now }⟩,
       ⟨[(sys.st.rotationSchedule.getD i ⟨0, 0⟩).cameraId], [false, false],
        [(sys.st.rotationSchedule.getD i ⟨0, 0⟩).durationSeconds * 1000], 0⟩) :=
  (processRotation_no_reset env srcs sys i henabled hidx hi).trans
    (rotActive_found_success env srcs sys i src hidx hi hfind hok hw)

/-- C6 witness: Scenario A — switch to camera 1 succeeds, the in-memory index
becomes 1, a 60 s (60000 ms) timer is armed, the persisted snapshot holds
index 0. -/
theorem successful_rotation_step_witness :
    processRotation false ⟨fun _ => true, true, 42⟩
        [⟨1, "srt", some true, some true⟩, ⟨2, "srt", some true, some true⟩]
        ⟨⟨true, none, [], [⟨1, 60⟩, ⟨2, 120⟩], none, none, some 0⟩, none⟩ =
      (⟨⟨true, none, [], [⟨1, 60⟩, ⟨2, 120⟩], some 1, some 42, some 1⟩,
         some ⟨true, none, [], [⟨1, 60⟩, ⟨2, 120⟩], some 1, some 42, some 0⟩⟩,
       ⟨[1], [false, false], [60000], 0⟩) :=
  successful_rotation_step _ _ _ 0 ⟨1, "srt", some true, some true⟩
    rfl rfl (by decide) (by decide) rfl rfl

/-- C7 counterexample: an enabled srt source whose `is_healthy` is `false`
still resolves — the filter never consults health, contradicting the claim
that an unhealthy camera does not resolve. -/
theorem unhealthy_camera_still_resolves :
    (⟨2, "srt", some true, some false⟩ : Source).is_healthy = some false ∧
    resolves [] [⟨2, "srt", some true, some false⟩] 2 = true := by
  decide

/-- C7 amended: the current item's camera resolves exactly when the fetched
list has a source with that id that is enabled, of type srt and — when the
selection is non-empty — selected (health plays no role); an unresolved
camera is handled by advancing the index, persisting it without a
notification, and arming a fixed 5000 ms retry timer with no switch
attempt. -/
theorem camera_resolution_and_unresolved_handling (env : Env)
    (srcs : List Source) (sys : Sys) (i : Nat)
    (henabled : sys.st.rotationEnabled = true)
    (hidx : sys.st.currentScheduleIndex = some i)
    (hi : i < sys.st.rotationSchedule.length)
    (hnores : resolves sys.st.selectedCameraIds srcs
        (sys.st.rotationSchedule.getD i ⟨0, 0⟩).cameraId = false)
    (hw : env.writeOk = true) :
    resolves sys.st.selectedCameraIds srcs
        (sys.st.rotationSchedule.getD i ⟨0, 0⟩).cameraId =
      specResolvable sys.st.selectedCameraIds srcs
        (sys.st.rotationSchedule.getD i ⟨0, 0⟩).cameraId ∧
    processRotation false env srcs sys =
      (⟨{ sys.st with
            currentScheduleIndex := some ((i + 1) % sys.st.rotationSchedule.length) },
         some { sys.st with
            currentScheduleIndex := some ((i + 1) % sys.st.rotationSchedule.length) }⟩,
       ⟨[], [false], [5000], 0⟩) := by
  refine ⟨resolves_eq_spec _ _ _, ?_⟩
  have hfind : (getAvailableSources sys.st.selectedCameraIds srcs).find?
      (fun s => s.id == (sys.st.rotationSchedule.getD i ⟨0, 0⟩).cameraId) = none := by
    have hnot : ¬ ((getAvailableSources sys.st.selectedCameraIds srcs).find?
        (fun s => s.id == (sys.st.rotationSchedule.getD i ⟨0, 0⟩).cameraId)).isSome = true := by
      unfold resolves at hnores
      rw [hnores]
      exact Bool.false_ne_true
    exact Option.not_isSome_iff_eq_none.mp hnot
  exact (processRotation_no_reset env srcs sys i henabled hidx hi).trans
    (rotActive_notfound env srcs sys i hidx hi hfind hw)

/-- C7 witness: Scenario D — selection `[1, 3]` excludes camera 2 even though
it is enabled and healthy; the scheduler skips it, advances (wrapping to 0)
and arms the 5000 ms retry. -/
theorem camera_resolution_and_unresolved_handling_witness :
    resolves [1, 3] [⟨2, "srt", some true, some true⟩] 2 =
      specResolvable [1, 3] [⟨2, "srt", some true, some true⟩] 2 ∧
    processRotation false ⟨fun _ => true, true, 42⟩
        [⟨2, "srt", some true, some true⟩]
        ⟨⟨true, none, [1, 3], [⟨2, 30⟩], none, none, some 0⟩, none⟩ =
      (⟨⟨true, none, [1, 3], [⟨2, 30⟩], none, none, some 0⟩,
         some ⟨true, none, [1, 3], [⟨2, 30⟩], none, none, some 0⟩⟩,
       ⟨[], [false], [5000], 0⟩) :=
  camera_resolution_and_unresolved_handling ⟨fun _ => true, true, 42⟩
    [⟨2, "srt", some true, some true⟩]
    ⟨⟨true, none, [1, 3], [⟨2, 30⟩], none, none, some 0⟩, none⟩ 0
    rfl rfl (by decide) (by decide) rfl

/-- C8: with rotation disabled and a fixed source that is present and
enabled, re-evaluation attempts exactly one switch when `currentSourceId`
differs from `fixedSourceId` and none when they agree, leaves
`currentScheduleIndex` cleared to null, arms no timer, and emits no
notification — the scheduler idles until the next configuration change. -/
theorem fixed_source_reevaluation (env : Env) (srcs : List Source) (sys : Sys)
    (f : Int) (src : Source)
    (henabled : sys.st.rotationEnabled = false)
    (hfid : sys.st.fixedSourceId = some f)
    (hfind : srcs.find? (fun s => s.id == f) = some src)
    (hen : src.enabled.getD false = true) :
    (processRotation false env srcs sys).2.switchAttempts =
        (if sys.st.currentSourceId = some f then [] else [f]) ∧
    (processRotation false env srcs sys).1.st.currentScheduleIndex = none ∧
    (processRotation false env srcs sys).2.timersArmed = [] ∧
    (processRotation false env srcs sys).2.notifs = 0 := by
  rw [processRotation_disabled_eq env srcs sys henabled]
  exact ⟨rotDisabled_attempts env srcs sys f src hfid hfind hen,
    rotDisabled_index_none env srcs sys,
    rotDisabled_timers env srcs sys,
    rotDisabled_notifs env srcs sys⟩

/-- C8 witness: Scenario B — rotation disabled, fixed source 5 enabled,
`currentSourceId` 3: exactly one switch attempt to 5, index cleared, no
timer, no notification. -/
theorem fixed_source_reevaluation_witness :
    (processRotation false ⟨fun _ => true, true, 42⟩
        [⟨5, "srt", some true, some true⟩]
        ⟨⟨false, some 5, [], [], some 3, none, some 1⟩, none⟩).2.switchAttempts =
      (if (some 3 : Option Int) = some 5 then [] else [5]) ∧
    (processRotation false ⟨fun _ => true, true, 42⟩
        [⟨5, "srt", some true, some true⟩]
        ⟨⟨false, some 5, [], [], some 3, none, some 1⟩, none⟩).1.st.currentScheduleIndex = none ∧
    (processRotation false ⟨fun _ => true, true, 42⟩
        [⟨5, "srt", some true, some true⟩]
        ⟨⟨false, some 5, [], [], some 3, none, some 1⟩, none⟩).2.timersArmed = [] ∧
    (processRotation false ⟨fun _ => true, true, 42⟩
        [⟨5, "srt", some true, some true⟩]
        ⟨⟨false, some 5, [], [], some 3, none, some 1⟩, none⟩).2.notifs = 0 :=
  fixed_source_reevaluation _ _ _ 5 ⟨5, "srt", some true, some true⟩
    rfl rfl (by decide) rfl

/-- C9: a switch attempt that fails (non-success response or transport error)
returns `false` and leaves the whole system — in particular
`currentSourceId` and `lastSwitchTime` — unchanged, performing no save and
emitting nothing. -/
theorem failed_switch_leaves_operational_fields_unchanged (env : Env)
    (sourceId : Int) (sys : Sys) (h : env.switchOk sourceId = false) :
    switchToSource env sourceId sys = (sys, false, ⟨[sourceId], [], [], 0⟩) := by
  unfold switchToSource
  simp [h]

/-- C9 witness: a concrete failing switch leaves the default state intact. -/
theorem failed_switch_leaves_operational_fields_unchanged_witness :
    switchToSource ⟨fun _ => false, true, 3⟩ 7 ⟨defaultState, none⟩ =
      (⟨defaultState, none⟩, false, ⟨[7], [], [], 0⟩) :=
  failed_switch_leaves_operational_fields_unchanged _ 7 _ rfl

/-- C10: persisting a state and reloading the written snapshot reproduces the
record field for field, and a snapshot with every field absent leaves the
in-memory record (the startup defaults) untouched. -/
theorem persisted_state_round_trip (st : SwitcherState) :
    loadState (writeSnapshot st) defaultState = st ∧
    loadState emptySnapshot st = st :=
  ⟨rfl, rfl⟩

end Switcher
